import Mathlib

/-
Verification of `util/grub-pbkdf2.c` (the grub-mkpasswd / grub-scrypt
password-hash utility) against its natural-language specification.

The development shallowly embeds the program:
  * bytes are `Nat` (with `&&& 0xf0`, `&&& 0xf` where the source masks);
  * the interactive run of `main` (from the option loop to `return 0`)
    is a pure function `run : Env → RunResult` over an environment that
    supplies the results of the external calls (`fopen` on `/dev/tty`,
    `tcgetattr`/`tcsetattr`, `getline`, `fopen`/`fread` on `/dev/random`,
    and `grub_crypto_pbkdf2`);
  * observable actions (writes to stdout/stderr, `tcsetattr` calls,
    `getline` sources, `fread`, `fclose`, the PBKDF2 invocation, and each
    `memset(_, 0, _)` / `free` of a buffer) are recorded in an event trace.
-/

/-- Terminal attributes (`struct termios`), reduced to the local-mode bits
the program touches (`ECHO`, `ISIG`) plus an opaque remainder standing for
every other field. -/
structure TermAttr where
  echo : Bool
  isig : Bool
  other : Nat
deriving DecidableEq, Repr

/-- Source stream of a `getline` call: the controlling terminal or the
standard input stream. -/
inductive Src where
  | tty : Src
  | stdinStream : Src
deriving DecidableEq, Repr

/-- The heap buffers `main` allocates: the two password lines returned by
`getline`, the derived-key buffer `buf`, its hex image `bufhex`, the salt
buffer `salt` and its hex image `salthex`. -/
inductive BufId where
  | pass1B : BufId
  | pass2B : BufId
  | buf : BufId
  | bufhex : BufId
  | salt : BufId
  | salthex : BufId
deriving DecidableEq, Repr

/-- Observable events of a run. `out` is a `printf` to the standard output
stream, `err` a diagnostic on the standard error stream, `ttySet` a
successful `tcsetattr`, `readLine n src` the `n`-th `getline` from `src`,
`randRead` the `fread` from the random device, `fclose b` an `fclose`
whose argument is NULL iff `b`, `kdf` the `grub_crypto_pbkdf2` call,
`zero b n` a `memset (b, 0, n)` — `n` is the byte count the source passes,
`strlen (pass)` for the password buffers (so bytes after an embedded NUL
are NOT covered) and the full `buflen`/`2 * buflen`/`saltlen`/
`2 * saltlen` for the key, salt and hex buffers — and `free b` a
`free (b)`. -/
inductive Ev where
  | out : String → Ev
  | err : String → Ev
  | ttySet : TermAttr → Ev
  | readLine : Nat → Src → Ev
  | randRead : Ev
  | fclose : Bool → Ev
  | kdf : List Nat → List Nat → Nat → Nat → Ev
  | zero : BufId → Nat → Ev
  | free : BufId → Ev
deriving DecidableEq, Repr

/-- One hex digit, as written by `hexify`: value `v + '0'` below ten,
`v + 'A' - 10` otherwise. -/
def hexNibble (v : Nat) : Char :=
  if v < 10 then Char.ofNat (v + 48) else Char.ofNat (v + 65 - 10)

/-- `hexify` from the source: for each byte, emit the high nibble
`(*bin & 0xf0) >> 4` then the low nibble `*bin & 0xf` (the closing
`*hex = 0` writes the C-string terminator, which is not part of the
encoded text). -/
def hexify : List Nat → List Char
  | [] => []
  | b :: bs => hexNibble ((b &&& 0xf0) >>> 4) :: hexNibble (b &&& 0xf) :: hexify bs

/-- The hex image of a byte sequence, as a string. -/
def hexifyStr (bs : List Nat) : String :=
  String.mk (hexify bs)

/-- Decoder for one hex digit, written to the specified alphabet
(`0`–`9` then `A`–`F`); it is the spec side of the round-trip law. -/
def unhexNibble (ch : Char) : Nat :=
  if ch.toNat < 65 then ch.toNat - 48 else ch.toNat - 55

/-- Decoder for hex strings (spec side of the round-trip law): consume two
digits per byte, high nibble first. -/
def unhexify : List Char → List Nat
  | c1 :: c2 :: cs => (16 * unhexNibble c1 + unhexNibble c2) :: unhexify cs
  | _ => []

/-- The sixteen characters the encoder may emit. -/
def hexDigits : List Char :=
  ['0', '1', '2', '3', '4', '5', '6', '7', '8', '9', 'A', 'B', 'C', 'D', 'E', 'F']

theorem hexByte_bound (b : Nat) : (b &&& 0xf0) >>> 4 < 16 ∧ (b &&& 0xf) < 16 := by
  have h1 : b &&& 0xf0 ≤ 0xf0 := Nat.and_le_right
  have h2 : b &&& 0xf ≤ 0xf := Nat.and_le_right
  have h3 : (b &&& 0xf0) >>> 4 = (b &&& 0xf0) / 2 ^ 4 := Nat.shiftRight_eq_div_pow _ _
  constructor
  · rw [h3]; omega
  · omega

theorem unhexNibble_hexNibble : ∀ v < 16, unhexNibble (hexNibble v) = v := by
  decide

theorem hexNibble_mem : ∀ v < 16, hexNibble v ∈ hexDigits := by
  decide

set_option maxRecDepth 4096 in
theorem nibble_split : ∀ b < 256, 16 * ((b &&& 0xf0) >>> 4) + (b &&& 0xf) = b := by
  decide

/-- C8: for every byte sequence, `hexify` emits for each byte the high
nibble then the low nibble, mapped to `0`–`9` / `A`–`F`, producing exactly
`2 L` characters, all drawn from `0-9A-F`, and decoding the result
recovers the original sequence exactly. -/
theorem c8_hexify_roundtrip (bs : List Nat) (hb : ∀ b ∈ bs, b < 256) :
    (hexify bs).length = 2 * bs.length ∧
    (∀ ch ∈ hexify bs, ch ∈ hexDigits) ∧
    unhexify (hexify bs) = bs := by
  induction bs with
  | nil => simp [hexify, unhexify]
  | cons b bs ih =>
    have hb0 : b < 256 := hb b (List.mem_cons_self _ _)
    have hrest : ∀ x ∈ bs, x < 256 := fun x hx => hb x (List.mem_cons_of_mem _ hx)
    obtain ⟨hlen, hmem, hrt⟩ := ih hrest
    refine ⟨?_, ?_, ?_⟩
    · simp only [hexify, List.length_cons, hlen]
      omega
    · intro ch hch
      simp only [hexify, List.mem_cons] at hch
      rcases hch with h | h | h
      · subst h; exact hexNibble_mem _ (hexByte_bound b).1
      · subst h; exact hexNibble_mem _ (hexByte_bound b).2
      · exact hmem ch h
    · simp only [hexify, unhexify, hrt, List.cons.injEq,
        unhexNibble_hexNibble _ (hexByte_bound b).1,
        unhexNibble_hexNibble _ (hexByte_bound b).2]
      exact ⟨nibble_split b hb0, trivial⟩

/-- C8 witness: the round-trip law evaluated at the concrete byte
sequence `[0, 171, 255]`. -/
theorem c8_hexify_roundtrip_w :
    (hexify [0, 171, 255]).length = 2 * [0, 171, 255].length ∧
    (∀ ch ∈ hexify [0, 171, 255], ch ∈ hexDigits) ∧
    unhexify (hexify [0, 171, 255]) = [0, 171, 255] :=
  c8_hexify_roundtrip [0, 171, 255] (by decide)

/-- A recognized option from the `getopt_long` loop, with its numeric
argument already through `strtoul` (argument parsing itself is external
glue). `h`/`V`/unknown options leave `main` before any buffer is
allocated and are outside the modelled run. -/
inductive OptTok where
  | c : Nat → OptTok
  | l : Nat → OptTok
  | s : Nat → OptTok
deriving DecidableEq, Repr

/-- The resolved parameters `unsigned int c = 10000, buflen = 64,
saltlen = 64` of `main`. -/
structure Params where
  c : Nat
  buflen : Nat
  saltlen : Nat
deriving DecidableEq, Repr

/-- One iteration of the option loop. The loop body declares
`int c = getopt_long (...)`, which shadows the outer iteration-count
variable `c`; in `case 'c'` the assignment `c = strtoul (optarg, NULL, 0)`
therefore writes the shadowed loop-local `c` (discarded when the
iteration ends), leaving the outer `c` untouched. `case 'l'` and
`case 's'` assign the (unshadowed) outer `buflen` and `saltlen`. -/
def optStep (p : Params) (tok : OptTok) : Params :=
  match tok with
  | OptTok.c v =>
      let cInner := v
      let _ := cInner
      p
  | OptTok.l v => { p with buflen := v }
  | OptTok.s v => { p with saltlen := v }

/-- The whole option loop, starting from the declared defaults
`c = 10000, buflen = 64, saltlen = 64`. -/
def resolveParams (toks : List OptTok) : Params :=
  toks.foldl optStep ⟨10000, 64, 64⟩

/-- The bytes of a C string: everything before the first NUL byte.
`strlen` is its length, and `strcmp p1 p2 == 0` iff the two sides are
equal. -/
def cstr (l : List Nat) : List Nat :=
  l.takeWhile (fun b => b ≠ 0)

/-- The stored password line after
`if (nr >= 1 && pass[nr-1] == '\n') pass[nr-1] = 0;`: a trailing newline
byte is overwritten with NUL (the buffer keeps its length). -/
def storedLine (l : List Nat) : List Nat :=
  if l.getLast? = some 10 then l.dropLast ++ [0] else l

/-- A password entry after stripping one trailing newline, as the spec
describes the entries that are compared (spec side, for stating claims
about "entries that differ in at least one byte"). -/
def stripNl (l : List Nat) : List Nat :=
  if l.getLast? = some 10 then l.dropLast else l

/-- Environment of one interactive run: the results of the external calls
`main` makes. `ttyOpen` is whether `fopen ("/dev/tty", "w+c")` succeeds
(the resulting stream is used only by the `tcgetattr`/`tcsetattr` calls;
the source reads both lines from `stdin` and prints the prompts with
`printf`, and the fallback stream variable `out` is never used, so the
model consults `ttyOpen` nowhere else). `tcgetOk`/`tcsetOk` are the
results of `tcgetattr` and of the echo-disabling `tcsetattr`; `initAttr`
is the terminal state `tcgetattr` reports. `line1`/`line2` are the
`getline` results (`none` models `nr < 0`). `randOpen` is whether
`fopen ("/dev/random", "rb")` succeeds and `randBytes` the bytes the
device yields (`fread` returns at most `saltlen` of them). `derive` is
`grub_crypto_pbkdf2 (GRUB_MD_SHA512, pass, strlen, salt, saltlen, c, buf,
buflen)`: error code together with the bytes written into `buf`.
`secureRngBuild` is whether the build target is one with a known-secure
random generator (the `__linux__`/`__FreeBSD__` preprocessor test). -/
structure Env where
  opts : List OptTok
  ttyOpen : Bool
  tcgetOk : Bool
  tcsetOk : Bool
  initAttr : TermAttr
  line1 : Option (List Nat)
  line2 : Option (List Nat)
  randOpen : Bool
  randBytes : List Nat
  derive : List Nat → List Nat → Nat → Nat → Nat × List Nat
  secureRngBuild : Bool

/-- Result of a run: the event trace and the process exit status. -/
structure RunResult where
  trace : List Ev
  exitCode : Nat

/-- Modelled from the spec: `grub_util_error` is declared in
`grub/util/misc.h`, whose implementation is not part of this repository
snapshot; per the spec the error controller "emits a single diagnostic
line to the error stream, then terminates the process with a non-zero
status". -/
def grubUtilError (tr : List Ev) (msg : String) : RunResult :=
  ⟨tr ++ [Ev.err msg], 1⟩

/-- The echo-disabling modification `t.c_lflag &= ~(ECHO|ISIG)`. -/
def noEchoIsig (a : TermAttr) : TermAttr :=
  { a with echo := false, isig := false }

/-- The guarded restoration
`if (tty_changed) (void) tcsetattr (fileno (in), TCSAFLUSH, &s);`. -/
def restoreEvs (ttyChanged : Bool) (saved : TermAttr) : List Ev :=
  if ttyChanged then [Ev.ttySet saved] else []

/-- The body of `main` after the option loop (allocation of the four
fixed buffers succeeding; the `grub_util_error` exits on malloc failure
happen before any secret exists and are not modelled). Mirrors the
source line by line: prompt and echo handling, the two `getline (_, _,
stdin)` reads, newline stripping, `strcmp` confirmation, the
`/dev/random` read, the `grub_crypto_pbkdf2` call, `hexify`, the final
`printf`, and every `memset (_, 0, _)`/`free`/`fclose` in source order. -/
def run (e : Env) : RunResult :=
  let p := resolveParams e.opts
  let ttyChanged := e.tcgetOk && e.tcsetOk
  let t1 : List Ev := if ttyChanged then [Ev.ttySet (noEchoIsig e.initAttr)] else []
  let t2 := t1 ++ [Ev.out "Enter password: ", Ev.readLine 1 Src.stdinStream]
  match e.line1 with
  | none =>
      grubUtilError
        (t2 ++ [Ev.free BufId.buf, Ev.free BufId.bufhex, Ev.free BufId.salthex,
                Ev.free BufId.salt] ++ restoreEvs ttyChanged e.initAttr)
        "Failure to read password"
  | some l1 =>
    let pass1 := storedLine l1
    let t3 := t2 ++ [Ev.out "\nReenter password: ", Ev.readLine 2 Src.stdinStream]
                 ++ restoreEvs ttyChanged e.initAttr ++ [Ev.out "\n"]
    match e.line2 with
    | none =>
        grubUtilError
          (t3 ++ [Ev.zero BufId.pass1B (cstr pass1).length, Ev.free BufId.pass1B,
                  Ev.free BufId.buf, Ev.free BufId.bufhex, Ev.free BufId.salthex,
                  Ev.free BufId.salt])
          "Failure to read password"
    | some l2 =>
      let pass2 := storedLine l2
      if cstr pass1 ≠ cstr pass2 then
        grubUtilError
          (t3 ++ [Ev.zero BufId.pass1B (cstr pass1).length,
                  Ev.zero BufId.pass2B (cstr pass2).length, Ev.free BufId.pass1B,
                  Ev.free BufId.pass2B, Ev.free BufId.buf, Ev.free BufId.bufhex,
                  Ev.free BufId.salthex, Ev.free BufId.salt])
          "Passwords don\x27t match"
      else
        let t4 := t3 ++ [Ev.zero BufId.pass2B (cstr pass2).length, Ev.free BufId.pass2B]
          ++ (if e.secureRngBuild then []
              else [Ev.out "WARNING: your random generator isn\x27t known to be secure\n"])
        if e.randOpen = false then
          grubUtilError
            (t4 ++ [Ev.zero BufId.pass1B (cstr pass1).length, Ev.free BufId.pass1B,
                    Ev.free BufId.buf,
                    Ev.free BufId.bufhex, Ev.free BufId.salthex, Ev.free BufId.salt,
                    Ev.fclose true])
            "Couldn\x27t retrieve random data for salt"
        else
          let saltData := e.randBytes.take p.saltlen
          let t5 := t4 ++ [Ev.randRead]
          if saltData.length ≠ p.saltlen then
            grubUtilError
              (t5 ++ [Ev.fclose false, Ev.zero BufId.pass1B (cstr pass1).length,
                      Ev.free BufId.pass1B,
                      Ev.free BufId.buf, Ev.free BufId.bufhex, Ev.free BufId.salthex,
                      Ev.free BufId.salt, Ev.fclose false])
              "Couldn\x27t retrieve random data for salt"
          else
            let t6 := t5 ++ [Ev.fclose false]
            let d := e.derive (cstr pass1) saltData p.c p.buflen
            let t7 := t6 ++ [Ev.kdf (cstr pass1) saltData p.c p.buflen,
                             Ev.zero BufId.pass1B (cstr pass1).length,
                             Ev.free BufId.pass1B]
            if d.1 ≠ 0 then
              grubUtilError
                (t7 ++ [Ev.zero BufId.buf p.buflen, Ev.zero BufId.bufhex (2 * p.buflen),
                        Ev.free BufId.buf, Ev.free BufId.bufhex,
                        Ev.zero BufId.salt p.saltlen, Ev.zero BufId.salthex (2 * p.saltlen),
                        Ev.free BufId.salt, Ev.free BufId.salthex])
                ("Cryptographic error number " ++ toString d.1)
            else
              ⟨t7 ++ [Ev.out ("Your PBKDF2 is grub.pbkdf2.sha512." ++ toString p.c ++ "."
                        ++ hexifyStr saltData ++ "." ++ hexifyStr d.2 ++ "\n"),
                      Ev.zero BufId.buf p.buflen, Ev.zero BufId.bufhex (2 * p.buflen),
                      Ev.free BufId.buf, Ev.free BufId.bufhex,
                      Ev.zero BufId.salt p.saltlen, Ev.zero BufId.salthex (2 * p.saltlen),
                      Ev.free BufId.salt, Ev.free BufId.salthex], 0⟩

/-- Selector for stdout writes. -/
def outVal : Ev → Option String
  | Ev.out s => some s
  | _ => none

/-- The stdout text chunks of a trace, in order. -/
def outsOf (tr : List Ev) : List String :=
  tr.filterMap outVal

/-- Selector for stderr diagnostics. -/
def errVal : Ev → Option String
  | Ev.err s => some s
  | _ => none

/-- The stderr diagnostic lines of a trace, in order. -/
def errsOf (tr : List Ev) : List String :=
  tr.filterMap errVal

/-- Selector for the source stream of each `getline`. -/
def readVal : Ev → Option Src
  | Ev.readLine _ src => some src
  | _ => none

/-- The streams the password reads were taken from, in order. -/
def readSrcs (tr : List Ev) : List Src :=
  tr.filterMap readVal

/-- Selector for the arguments of each key-derivation call:
(password, salt, iteration count, output length). -/
def kdfVal : Ev → Option (List Nat × List Nat × Nat × Nat)
  | Ev.kdf pw salt iter klen => some (pw, salt, iter, klen)
  | _ => none

/-- The key-derivation calls of a trace, with their arguments. -/
def kdfCalls (tr : List Ev) : List (List Nat × List Nat × Nat × Nat) :=
  tr.filterMap kdfVal

/-- Selector for reads from the random device. -/
def randVal : Ev → Option Unit
  | Ev.randRead => some ()
  | _ => none

/-- How many times the random device was read. -/
def randReadCount (tr : List Ev) : Nat :=
  (tr.filterMap randVal).length

/-- Whether a trace performs an `fclose` on a NULL handle. -/
def fcloseNullVal : Ev → Option Unit
  | Ev.fclose true => some ()
  | _ => none

/-- How many `fclose (NULL)` calls a trace performs. -/
def fcloseNullCount (tr : List Ev) : Nat :=
  (tr.filterMap fcloseNullVal).length

/-- The terminal attributes after replaying the `tcsetattr` calls of a
trace over the initial attributes. -/
def finalAttr (a : TermAttr) : List Ev → TermAttr
  | [] => a
  | Ev.ttySet t :: tr => finalAttr t tr
  | Ev.out _ :: tr => finalAttr a tr
  | Ev.err _ :: tr => finalAttr a tr
  | Ev.readLine _ _ :: tr => finalAttr a tr
  | Ev.randRead :: tr => finalAttr a tr
  | Ev.fclose _ :: tr => finalAttr a tr
  | Ev.kdf _ _ _ _ :: tr => finalAttr a tr
  | Ev.zero _ _ :: tr => finalAttr a tr
  | Ev.free _ :: tr => finalAttr a tr

/-- The part of a trace strictly after the second `getline`. -/
def dropThroughRead2 : List Ev → List Ev
  | [] => []
  | Ev.readLine n _ :: tr => if n = 2 then tr else dropThroughRead2 tr
  | Ev.out _ :: tr => dropThroughRead2 tr
  | Ev.err _ :: tr => dropThroughRead2 tr
  | Ev.ttySet _ :: tr => dropThroughRead2 tr
  | Ev.randRead :: tr => dropThroughRead2 tr
  | Ev.fclose _ :: tr => dropThroughRead2 tr
  | Ev.kdf _ _ _ _ :: tr => dropThroughRead2 tr
  | Ev.zero _ _ :: tr => dropThroughRead2 tr
  | Ev.free _ :: tr => dropThroughRead2 tr

/-- Zeroize-before-release discipline for buffer `b`, to the extent
`need`: scanning the trace left to right (with `seen` recording whether a
`memset (b, 0, n)` with `n ≥ need` has already happened), every `free` of
`b` is preceded by a zeroization of `b` covering at least `need` bytes.
With `need = 0` it asks merely for some preceding `memset` of `b`. -/
def zbf (b : BufId) (need : Nat) : Bool → List Ev → Bool
  | _, [] => true
  | seen, Ev.zero b2 n :: tr => zbf b need (seen || (decide (b2 = b) && decide (need ≤ n))) tr
  | seen, Ev.free b2 :: tr => (decide (b2 ≠ b) || seen) && zbf b need seen tr
  | seen, Ev.out _ :: tr => zbf b need seen tr
  | seen, Ev.err _ :: tr => zbf b need seen tr
  | seen, Ev.ttySet _ :: tr => zbf b need seen tr
  | seen, Ev.readLine _ _ :: tr => zbf b need seen tr
  | seen, Ev.randRead :: tr => zbf b need seen tr
  | seen, Ev.fclose _ :: tr => zbf b need seen tr
  | seen, Ev.kdf _ _ _ _ :: tr => zbf b need seen tr

/-- Whether a stdout chunk is the credential line (its first fourteen
characters are `Your PBKDF2 is`). -/
def isCredChunk (s : String) : Bool :=
  decide (s.data.take 14 = ("Your PBKDF2 is").data)

/-- A trace prints no credential line on stdout. -/
def noCred (tr : List Ev) : Bool :=
  (outsOf tr).all (fun s => !(isCredChunk s))

/-- A fully successful interactive run: `-c 100 -l 2 -s 2` on the command
line, terminal available and echo suppression succeeding, both entries
`"a\n"`, two bytes from the random device, and a derivation primitive
that succeeds with key bytes `0xAB 0xCD`. -/
def envOk : Env :=
  { opts := [OptTok.c 100, OptTok.l 2, OptTok.s 2]
    ttyOpen := true
    tcgetOk := true
    tcsetOk := true
    initAttr := ⟨true, true, 7⟩
    line1 := some [97, 10]
    line2 := some [97, 10]
    randOpen := true
    randBytes := [1, 2]
    derive := fun _ _ _ _ => (0, [171, 205])
    secureRngBuild := true }

/-- The same run with a differing confirmation entry `"b\n"`. -/
def envMismatch : Env :=
  { envOk with line2 := some [98, 10] }

/-- The same run with entries `"a\NUL b\n"` and `"a\NUL c\n"`: they differ
in a byte that sits after an embedded NUL. -/
def envNulDiff : Env :=
  { envOk with line1 := some [97, 0, 98, 10], line2 := some [97, 0, 99, 10] }

/-- The same run, but the random device yields only one of the two
requested salt bytes. -/
def envShortRead : Env :=
  { envOk with randBytes := [1] }

/-- The same run, but `/dev/random` cannot be opened. -/
def envNoRand : Env :=
  { envOk with randOpen := false }

/-- The same run with both entries a bare newline (empty password). -/
def envEmptyPass : Env :=
  { envOk with line1 := some [10], line2 := some [10] }

/-- The same run with the first `getline` failing. -/
def envReadFail : Env :=
  { envOk with line1 := none }

/-- C2 (code bug): the loop-local `int c = getopt_long (...)` shadows the
iteration-count variable `c`, so `case 'c'` writes the local and the
supplied `-c 100` is discarded: the PBKDF2 call and the printed line use
the default 10000; the claim (and the usage text) say the supplied value
is used. -/
theorem c2_iteration_flag_ignored :
    (resolveParams [OptTok.c 100]).c = 10000 ∧
    envOk.opts = [OptTok.c 100, OptTok.l 2, OptTok.s 2] ∧
    (run envOk).exitCode = 0 ∧
    kdfCalls (run envOk).trace = [([97], [1, 2], 10000, 2)] ∧
    outsOf (run envOk).trace =
      ["Enter password: ", "\nReenter password: ", "\n",
       "Your PBKDF2 is grub.pbkdf2.sha512.10000.0102.ABCD\n"] := by
  decide

/-- C5 (code bug): even in a run where `/dev/tty` opens, both password
lines are read from the standard input stream (`getline (_, _, stdin)`)
and the prompts go to standard output (`printf`); nothing is read from
the terminal stream and nothing is written to standard error. -/
theorem c5_reads_stdin_despite_tty :
    envOk.ttyOpen = true ∧
    readSrcs (run envOk).trace = [Src.stdinStream, Src.stdinStream] ∧
    Ev.out "Enter password: " ∈ (run envOk).trace ∧
    Ev.out "\nReenter password: " ∈ (run envOk).trace ∧
    errsOf (run envOk).trace = [] := by
  decide

/-- C7 (code bug): when `/dev/random` cannot be opened the run does exit
non-zero with the single entropy diagnostic and prints no credential, but
along that path it calls `fclose` on the NULL handle it failed to open. -/
theorem c7_fclose_on_null_handle :
    envNoRand.randOpen = false ∧
    (run envNoRand).exitCode ≠ 0 ∧
    errsOf (run envNoRand).trace = ["Couldn\x27t retrieve random data for salt"] ∧
    noCred (run envNoRand).trace = true ∧
    fcloseNullCount (run envNoRand).trace = 1 := by
  decide

/-- C9 (code bug): a successful run exits zero and prints exactly one
credential line, but standard output also carries the prompt text
(`printf` writes the prompts to stdout, the fallback stream variable
`out` is never used), so the full stdout text spans several lines, not
exactly one; a fatal run exits non-zero with no credential line. -/
theorem c9_stdout_has_prompt_lines :
    (run envOk).exitCode = 0 ∧
    ((outsOf (run envOk).trace).filter isCredChunk) =
      ["Your PBKDF2 is grub.pbkdf2.sha512.10000.0102.ABCD\n"] ∧
    String.join (outsOf (run envOk).trace) =
      "Enter password: \nReenter password: \nYour PBKDF2 is grub.pbkdf2.sha512.10000.0102.ABCD\n" ∧
    (String.join (outsOf (run envOk).trace)).data.count (Char.ofNat 10) = 3 ∧
    (run envMismatch).exitCode ≠ 0 ∧
    noCred (run envMismatch).trace = true := by
  decide

/-- C1 counterexample: on the entropy-failure exit path (short read from
the random device) the salt buffer — already holding the partial device
bytes — is released by `free` without ever being overwritten with zeros
(no `memset` of it, of any length, precedes the `free`), and the
derived-key buffer is likewise freed unzeroized; moreover, on the
embedded-NUL run the captured first entry is stored as the four bytes
`97, 0, 98, 0`, yet the only wipe before its `free` is the
`memset (pass1, 0, strlen (pass1))` of `strlen = 1` byte, so the secret
byte `98` after the embedded NUL is released unzeroized. -/
theorem c1_salt_freed_unzeroized :
    (run envShortRead).exitCode ≠ 0 ∧
    Ev.free BufId.salt ∈ (run envShortRead).trace ∧
    zbf BufId.salt 0 false (run envShortRead).trace = false ∧
    zbf BufId.buf 0 false (run envShortRead).trace = false ∧
    storedLine [97, 0, 98, 10] = [97, 0, 98, 0] ∧
    (cstr (storedLine [97, 0, 98, 10])).length = 1 ∧
    Ev.zero BufId.pass1B 1 ∈ (run envNulDiff).trace ∧
    Ev.free BufId.pass1B ∈ (run envNulDiff).trace ∧
    zbf BufId.pass1B 2 false (run envNulDiff).trace = false := by
  decide

/-- C3 counterexample: the entries `"a\NUL b"` and `"a\NUL c"` (after
stripping the trailing newline) differ in a byte, yet `strcmp` compares
only up to the first NUL, finds the entries equal, and the run completes
successfully and prints a credential instead of failing with the
mismatch error. -/
theorem c3_nul_byte_counterexample :
    stripNl [97, 0, 98, 10] ≠ stripNl [97, 0, 99, 10] ∧
    envNulDiff.line1 = some [97, 0, 98, 10] ∧
    envNulDiff.line2 = some [97, 0, 99, 10] ∧
    (run envNulDiff).exitCode = 0 ∧
    noCred (run envNulDiff).trace = false := by
  decide

set_option maxHeartbeats 1000000 in
/-- C1 (amended): on every exit path — the failure paths included — each
captured password buffer is, before its `free`, wiped by
`memset (pass, 0, strlen (pass))`: its C-string contents up to the first
NUL byte are overwritten with zeros (for entries without embedded NULs
that is the entire stripped entry; the counterexample shows bytes after
an embedded NUL are released unwiped); the salt, derived-key and hex
buffers are zeroized over their full `saltlen`/`buflen`/hex lengths
before release on every path that reaches the key-derivation call (its
failure path and the success path), while the counterexample shows the
earlier failure paths release them without any wipe. -/
theorem c1_zeroize_discipline (e : Env) :
    (∀ l1, e.line1 = some l1 →
      zbf BufId.pass1B (cstr (storedLine l1)).length false (run e).trace = true) ∧
    (∀ l2, e.line2 = some l2 →
      zbf BufId.pass2B (cstr (storedLine l2)).length false (run e).trace = true) ∧
    (kdfCalls (run e).trace ≠ [] →
      zbf BufId.buf (resolveParams e.opts).buflen false (run e).trace = true ∧
      zbf BufId.bufhex (2 * (resolveParams e.opts).buflen) false (run e).trace = true ∧
      zbf BufId.salt (resolveParams e.opts).saltlen false (run e).trace = true ∧
      zbf BufId.salthex (2 * (resolveParams e.opts).saltlen) false (run e).trace = true) := by
  obtain ⟨opts, ttyOpen, tcget, tcset, ia, l1, l2, ro, rb, dv, srb⟩ := e
  cases l1 <;> cases l2 <;> cases tcget <;> cases tcset <;> cases ro <;> cases srb <;>
    simp only [run, restoreEvs, grubUtilError, Bool.and_self, Bool.and_false,
      Bool.false_and, Bool.and_true, Bool.true_and, if_true, if_false,
      List.cons_append, List.nil_append, List.append_nil] <;>
    (try split_ifs) <;>
    simp [zbf, kdfCalls, kdfVal]

/-- C1 witness: the strlen-prefix wipe discipline evaluated on the
concrete successful run, whose first entry is `"a\n"`. -/
theorem c1_zeroize_discipline_w :
    zbf BufId.pass1B (cstr (storedLine [97, 10])).length false (run envOk).trace = true :=
  (c1_zeroize_discipline envOk).1 [97, 10] rfl

theorem takeWhile_all_append (p : Nat → Bool) (xs ys : List Nat)
    (h : ∀ x ∈ xs, p x = true) :
    (xs ++ ys).takeWhile p = xs ++ ys.takeWhile p := by
  induction xs with
  | nil => simp
  | cons a l ih =>
      simp only [List.cons_append, List.takeWhile_cons, h a (List.mem_cons_self a l),
        if_true]
      rw [ih fun x hx => h x (List.mem_cons_of_mem a hx)]

/-- For a line whose stripped form carries no NUL byte, the stored C
string (`getline` buffer after the newline byte is overwritten with NUL)
reads back exactly as the stripped entry. -/
theorem cstr_storedLine (l : List Nat) (h : 0 ∉ stripNl l) :
    cstr (storedLine l) = stripNl l := by
  unfold storedLine stripNl cstr
  unfold stripNl at h
  split_ifs with hl
  · simp only [hl, if_true] at h
    rw [takeWhile_all_append]
    · simp [List.takeWhile]
    · intro x hx
      simp only [decide_eq_true_eq]
      intro hx0
      exact h (hx0 ▸ hx)
  · simp only [hl, if_false] at h
    rw [List.takeWhile_eq_self_iff.mpr]
    intro x hx
    simp only [decide_eq_true_eq]
    intro hx0
    exact h (hx0 ▸ hx)

/-- C3 (amended): the confirmation comparison is `strcmp`, i.e.
byte-for-byte on the NUL-terminated contents: whenever the two entries
(after stripping one trailing newline each) contain no embedded NUL byte
and differ in at least one byte, the run fails with the mismatch error
and prints no credential line. (The counterexample shows entries that
differ only beyond an embedded NUL byte are accepted as equal.) -/
theorem c3_mismatch_detected (e : Env) (l1 l2 : List Nat)
    (h1 : e.line1 = some l1) (h2 : e.line2 = some l2)
    (hn1 : 0 ∉ stripNl l1) (hn2 : 0 ∉ stripNl l2)
    (hne : stripNl l1 ≠ stripNl l2) :
    (run e).exitCode ≠ 0 ∧
    "Passwords don\x27t match" ∈ errsOf (run e).trace ∧
    noCred (run e).trace = true := by
  have hc : cstr (storedLine l1) ≠ cstr (storedLine l2) := by
    rw [cstr_storedLine l1 hn1, cstr_storedLine l2 hn2]
    exact hne
  simp only [run, h1, h2, restoreEvs, grubUtilError]
  rw [if_pos hc]
  refine ⟨by simp, ?_, ?_⟩ <;>
    split_ifs <;>
    simp [errsOf, errVal, noCred, outsOf, outVal, isCredChunk]

/-- C3 witness: the mismatch behaviour on the concrete run whose entries
are `"a\n"` and `"b\n"`. -/
theorem c3_mismatch_detected_w :
    (run envMismatch).exitCode ≠ 0 ∧
    "Passwords don\x27t match" ∈ errsOf (run envMismatch).trace ∧
    noCred (run envMismatch).trace = true :=
  c3_mismatch_detected envMismatch [97, 10] [98, 10] rfl rfl
    (by decide) (by decide) (by decide)

/-- C4: when the echo-disabling attribute modification succeeded
(`tty_changed`), the saved attributes are restored on every exit branch —
on the branch that exits after a failed first read, and otherwise
immediately after the second `getline` (before its result is even
examined) — so the terminal echo attribute at exit equals its pre-run
value. -/
theorem c4_terminal_restored (e : Env) (h : (e.tcgetOk && e.tcsetOk) = true) :
    (finalAttr e.initAttr (run e).trace).echo = e.initAttr.echo ∧
    (e.line1 = none → Ev.ttySet e.initAttr ∈ (run e).trace) ∧
    (∀ l1, e.line1 = some l1 → Ev.ttySet e.initAttr ∈ dropThroughRead2 (run e).trace) := by
  rcases hl1 : e.line1 with _ | l1 <;>
    rcases hl2 : e.line2 with _ | l2 <;>
    simp only [run, h, hl1, hl2, restoreEvs, grubUtilError, if_true,
      List.cons_append, List.nil_append, List.append_nil] <;>
    (try split_ifs) <;>
    simp_all [finalAttr, dropThroughRead2]

/-- C4 witness: echo preservation on the concrete successful run. -/
theorem c4_terminal_restored_w :
    (envOk.tcgetOk && envOk.tcsetOk) = true ∧
    (finalAttr envOk.initAttr (run envOk).trace).echo = envOk.initAttr.echo :=
  ⟨rfl, (c4_terminal_restored envOk rfl).1⟩

/-- C6: whenever the opened random device yields fewer than `saltlen`
bytes, the run fails with the entropy diagnostic and a non-zero exit,
the device is read exactly once (no retry), the key-derivation call is
never reached, and no credential is printed. -/
theorem c6_short_entropy_read (e : Env) (l1 l2 : List Nat)
    (h1 : e.line1 = some l1) (h2 : e.line2 = some l2)
    (heq : cstr (storedLine l1) = cstr (storedLine l2))
    (hro : e.randOpen = true)
    (hshort : e.randBytes.length < (resolveParams e.opts).saltlen) :
    (run e).exitCode ≠ 0 ∧
    "Couldn\x27t retrieve random data for salt" ∈ errsOf (run e).trace ∧
    randReadCount (run e).trace = 1 ∧
    kdfCalls (run e).trace = [] ∧
    noCred (run e).trace = true := by
  have hlen : ¬ ¬ ((e.randBytes.take (resolveParams e.opts).saltlen).length
      ≠ (resolveParams e.opts).saltlen) := by
    simp [List.length_take]
    omega
  simp only [run, h1, h2, hro, restoreEvs, grubUtilError]
  rw [if_neg (not_ne_iff.mpr heq)]
  split_ifs <;>
    simp_all [errsOf, errVal, randReadCount, randVal, kdfCalls, kdfVal,
      noCred, outsOf, outVal, isCredChunk]

/-- C6 witness: the short-read failure on the concrete run whose random
device yields one byte where two are requested. -/
theorem c6_short_entropy_read_w :
    (run envShortRead).exitCode ≠ 0 ∧
    "Couldn\x27t retrieve random data for salt" ∈ errsOf (run envShortRead).trace ∧
    randReadCount (run envShortRead).trace = 1 ∧
    kdfCalls (run envShortRead).trace = [] ∧
    noCred (run envShortRead).trace = true :=
  c6_short_entropy_read envShortRead [97, 10] [97, 10] rfl rfl rfl rfl (by decide)

/-- The mismatch diagnostic is not a derivation-error diagnostic. -/
theorem mismatchMsg_ne (s : String) :
    ("Passwords don\x27t match" : String) ≠ "Cryptographic error number " ++ s := by
  intro h
  have hd := congrArg (fun t : String => t.data.take 1) h
  simp [String.data_append] at hd

/-- C10: when both entries are a bare newline, the stored entries read
back as the empty C string, the confirmation comparison succeeds (no
mismatch error is emitted), and the run proceeds to invoke key
derivation with the empty (zero-length) password. -/
theorem c10_empty_password_accepted (e : Env)
    (h1 : e.line1 = some [10]) (h2 : e.line2 = some [10])
    (hro : e.randOpen = true)
    (hlen : (resolveParams e.opts).saltlen ≤ e.randBytes.length) :
    (kdfCalls (run e).trace).map (fun q => q.1) = [[]] ∧
    "Passwords don\x27t match" ∉ errsOf (run e).trace := by
  have hns : ¬ ((e.randBytes.take (resolveParams e.opts).saltlen).length
      ≠ (resolveParams e.opts).saltlen) := by
    simp [List.length_take]
    omega
  simp only [run, h1, h2, hro, restoreEvs, grubUtilError]
  rw [if_neg hns]
  split_ifs <;>
    simp_all [kdfCalls, kdfVal, errsOf, errVal, cstr, storedLine, mismatchMsg_ne]

/-- C10 witness: the empty-password run on the concrete environment. -/
theorem c10_empty_password_accepted_w :
    (kdfCalls (run envEmptyPass).trace).map (fun q => q.1) = [[]] ∧
    "Passwords don\x27t match" ∉ errsOf (run envEmptyPass).trace :=
  c10_empty_password_accepted envEmptyPass rfl rfl rfl (by decide)
